import Mathlib

/-!
# Verification of the `@novadata/vue-auth` plugin core

Shallow embedding of the authentication core (`src/auth.ts`, the module
resolved by `index.ts`'s `import { createAuthCore } from './auth'`), the
axios response interceptor (`src/interceptors.ts`) and the router guard
(`src/guards.js`).

JavaScript `null`/`undefined` string values are modelled as `Option String`
(`none` = absent).  JavaScript truthiness of a string value (`if (x)`,
`a || b`) is modelled by `truthy` / `jsOr`.  The storage backend is folded
into the state record as two optional slots (`storToken`, `storRefresh`);
side effects (HTTP calls, sleeps, router navigation, console logging,
callback invocations) are recorded in an explicit action trace.  HTTP
outcomes are supplied by oracles (`Except HttpError Body`), since the
network is external to the program.
-/

namespace VueAuth

/-- JS truthiness of an optional string: `null`/`undefined` and `""` are falsy. -/
def truthy : Option String → Bool
  | none => false
  | some s => s ≠ ""

/-- JS `a || b` on optional string values: yields `a` when `a` is truthy, else `b`. -/
def jsOr (a b : Option String) : Option String :=
  if truthy a then a else b

/-- JS string interpolation of a possibly-undefined value (`undefined` prints as "undefined"). -/
def jsStr : Option String → String
  | none => "undefined"
  | some s => s

/-- A JSON-ish response body: a finite list of string fields. -/
def Body := List (String × String)

/-- Field access `data[k]` on a response body. -/
def Body.get (b : Body) (k : String) : Option String :=
  (b.find? (fun p => p.1 == k)).map (fun p => p.2)

/-- An axios error as observed by the code: `error.response?.status`,
`error.response?.data?.detail` and `error.response?.data?.message`
(the optional chains are flattened into optional fields). -/
structure HttpError where
  status : Option Nat := none
  detail : Option String := none
  message : Option String := none
deriving Repr, DecidableEq

/-- Configuration of `createAuthCore` (defaults as destructured in `auth.ts`). -/
structure AuthConfig where
  tokenKey : String := "token"
  refreshTokenKey : String := "refresh"
  maxRetries : Nat := 3
  loginEndpoint : String := "/token/"
  refreshEndpoint : String := "/token/refresh/"
  userEndpoint : String := "/contexto-inicial/"
  loginRouteName : String := "login"
deriving Repr, DecidableEq

/-- The mutable auth state: the five refs of `createAuthCore` plus the two
slots of the storage backend (`setToken`/`removeToken`,
`setRefreshToken`/`removeRefreshToken` collapse to writing/clearing them). -/
structure AuthState where
  token : Option String := none
  refreshToken : Option String := none
  user : Option String := none
  loading : Bool := true
  authenticated : Bool := false
  storToken : Option String := none
  storRefresh : Option String := none
deriving Repr, DecidableEq

/-- Observable side effects, in program order. -/
inductive Action where
  | post (endpoint : String) (sentRefresh : String) (skipAuthRefresh : Bool)
  | get (endpoint : String)
  | sleepMs (n : Nat)
  | didSetTokens (t r : Option String)
  | didClearAuth
  | setAuthFalse
  | navReplace (routeName : String) (logoutFlag : Bool)
  | consoleLog
  | cbLogout
  | cbFetchUser
  | cbLogin
  | cbError (msg : String)
deriving Repr, DecidableEq

/-- `setTokens(newToken, newRefresh)`: both refs take the new values verbatim;
each storage slot is written when the new value is truthy and removed otherwise. -/
def setTokens (s : AuthState) (newToken newRefresh : Option String) : AuthState :=
  { s with
    token := newToken
    refreshToken := newRefresh
    storToken := if truthy newToken then newToken else none
    storRefresh := if truthy newRefresh then newRefresh else none }

/-- `clearAuth()`: clears user, both token refs, `authenticated`, and both
storage slots.  `loading` is untouched. -/
def clearAuth (s : AuthState) : AuthState :=
  { s with
    user := none
    token := none
    refreshToken := none
    authenticated := false
    storToken := none
    storRefresh := none }

/-- Access-token extraction used by both `login` and `refreshAccessToken`:
`data[tokenKey] || data.access || data.token`. -/
def extractAccess (cfg : AuthConfig) (data : Body) : Option String :=
  jsOr (data.get cfg.tokenKey) (jsOr (data.get "access") (data.get "token"))

/-- Refresh-token extraction in `login`:
`data[refreshTokenKey] || data.refresh || data.refresh_token`. -/
def extractRefresh (cfg : AuthConfig) (data : Body) : Option String :=
  jsOr (data.get cfg.refreshTokenKey) (jsOr (data.get "refresh") (data.get "refresh_token"))

/-- Error-message extraction in `login`'s catch:
`error.response?.data?.detail || error.response?.data?.message || "Erro ao realizar login"`. -/
def errMessage (e : HttpError) : String :=
  jsStr (jsOr e.detail (jsOr e.message (some "Erro ao realizar login")))

/-- Result of `refreshAccessToken`. -/
inductive RefreshResult where
  /-- returned normally with the extracted token value (possibly `undefined`) -/
  | ok (newToken : Option String)
  /-- threw `Error("No refresh token available")` -/
  | noRefreshToken
  /-- threw `lastError` after exhausting all attempts (`none` when the loop never ran) -/
  | failed (lastError : Option HttpError)
deriving Repr, DecidableEq

/-- The retry loop of `refreshAccessToken`: attempt `i` with `fuel` attempts
remaining (including the current one), `lastErr` the last caught error.
`oracle k` is the outcome of the `k`-th POST to the refresh endpoint. -/
def refreshLoop (cfg : AuthConfig) (rt : String) (oracle : Nat → Except HttpError Body) :
    Nat → Nat → Option HttpError → AuthState → RefreshResult × AuthState × List Action
  | _i, 0, lastErr, s => (.failed lastErr, clearAuth s, [.didClearAuth])
  | i, fuel + 1, _lastErr, s =>
    match oracle i with
    | .ok data =>
      let newToken := extractAccess cfg data
      (.ok newToken, setTokens s newToken (some rt),
        [.post cfg.refreshEndpoint rt true, .didSetTokens newToken (some rt)])
    | .error e =>
      let tail := refreshLoop cfg rt oracle (i + 1) fuel (some e) s
      if fuel = 0 then
        (tail.1, tail.2.1, .post cfg.refreshEndpoint rt true :: tail.2.2)
      else
        (tail.1, tail.2.1,
          .post cfg.refreshEndpoint rt true :: .sleepMs (1000 * (i + 1)) :: tail.2.2)

/-- `refreshAccessToken()`: if no (truthy) refresh token is held, clear auth
and throw; otherwise run up to `maxRetries` attempts. -/
def refreshAccessToken (cfg : AuthConfig) (oracle : Nat → Except HttpError Body)
    (s : AuthState) : RefreshResult × AuthState × List Action :=
  match s.refreshToken with
  | none => (.noRefreshToken, clearAuth s, [.didClearAuth])
  | some rt =>
    if rt = "" then (.noRefreshToken, clearAuth s, [.didClearAuth])
    else refreshLoop cfg rt oracle 0 cfg.maxRetries none s

/-- A run of `logout()`: final state, action trace, and whether it threw.
`navOk` tells whether `router.replace` resolved; on rejection the catch
logs and swallows the error, skipping `clearAuth` and the callback. -/
def logout (cfg : AuthConfig) (navOk : Bool) (s : AuthState) :
    AuthState × List Action × Bool :=
  let s1 := { s with authenticated := false }
  if navOk then
    (clearAuth s1,
      [.setAuthFalse, .navReplace cfg.loginRouteName true, .didClearAuth, .cbLogout],
      false)
  else
    (s1, [.setAuthFalse, .navReplace cfg.loginRouteName true, .consoleLog], false)

/-- Outcome of a `fetchUser()` run. -/
structure FetchUserRun where
  result : Except HttpError String
  /-- the value of `loading` while the GET was in flight -/
  duringLoading : Bool
  final : AuthState
  trace : List Action
deriving Repr

/-- `fetchUser()`: sets `loading` true, GETs the user endpoint; on success
stores the body in `user`, sets `authenticated`, invokes `onFetchUser` and
returns the body; on error clears auth and rethrows; `finally` resets
`loading` to false. -/
def fetchUser (cfg : AuthConfig) (outcome : Except HttpError String)
    (s : AuthState) : FetchUserRun :=
  let s1 := { s with loading := true }
  match outcome with
  | .ok d =>
    { result := .ok d
      duringLoading := s1.loading
      final := { s1 with user := some d, authenticated := true, loading := false }
      trace := [.get cfg.userEndpoint, .cbFetchUser] }
  | .error e =>
    { result := .error e
      duringLoading := s1.loading
      final := { clearAuth s1 with loading := false }
      trace := [.get cfg.userEndpoint, .didClearAuth] }

/-- Result value of `login()`. -/
inductive LoginResult where
  | ok (user : Option String)
  | failed (error : HttpError) (message : String)
deriving Repr, DecidableEq

/-- Outcome of a `login()` run. -/
structure LoginRun where
  result : LoginResult
  /-- whether the call rejected (threw) to its caller -/
  threw : Bool
  final : AuthState
  trace : List Action
deriving Repr

/-- `login(credentials)`: POSTs to the login endpoint; on success extracts
the token pair by field fallback, stores it via `setTokens`, awaits
`fetchUser`, invokes `onLogin` and returns `{success: true, user}`.  Any
error (POST or `fetchUser`) is caught: a message is extracted, `onError`
invoked, and `{success: false, error, message}` returned.  `finally`
resets `loading`.  `postOutcome` is the outcome of the POST; `getOutcome`
that of `fetchUser`'s GET (used only when the POST succeeds). -/
def login (cfg : AuthConfig) (postOutcome : Except HttpError Body)
    (getOutcome : Except HttpError String) (s : AuthState) : LoginRun :=
  let s1 := { s with loading := true }
  match postOutcome with
  | .error e =>
    { result := .failed e (errMessage e)
      threw := false
      final := { s1 with loading := false }
      trace := [.post cfg.loginEndpoint "" false, .cbError (errMessage e)] }
  | .ok data =>
    let accessToken := extractAccess cfg data
    let refresh := extractRefresh cfg data
    let s2 := setTokens s1 accessToken refresh
    let fr := fetchUser cfg getOutcome s2
    match fr.result with
    | .ok _ =>
      { result := .ok fr.final.user
        threw := false
        final := { fr.final with loading := false }
        trace :=
          [.post cfg.loginEndpoint "" false, .didSetTokens accessToken refresh]
            ++ fr.trace ++ [.cbLogin] }
    | .error e =>
      { result := .failed e (errMessage e)
        threw := false
        final := { fr.final with loading := false }
        trace :=
          [.post cfg.loginEndpoint "" false, .didSetTokens accessToken refresh]
            ++ fr.trace ++ [.cbError (errMessage e)] }

/-! ## Response interceptor (`src/interceptors.ts`) -/

/-- The request config flags the interceptor reads and writes
(`_skipAuthRefresh`, `_retry`, `headers.Authorization`). -/
structure ReqConfig where
  skipAuthRefresh : Bool := false
  retryFlag : Bool := false
  authorization : Option String := none
deriving Repr, DecidableEq

/-- An error reaching the response interceptor: `error.response?.status`
and `error.config` (possibly absent). -/
structure InterceptedError where
  status : Option Nat := none
  config : Option ReqConfig := none
deriving Repr, DecidableEq

/-- `originalRequest?._skipAuthRefresh` (optional chaining: absent config is falsy). -/
def cfgSkip : Option ReqConfig → Bool
  | none => false
  | some c => c.skipAuthRefresh

/-- `originalRequest?._retry`. -/
def cfgRetry : Option ReqConfig → Bool
  | none => false
  | some c => c.retryFlag

/-- How the response-error handler concluded. -/
inductive HandlerOutcome where
  /-- `Promise.reject(error)`: the original error propagates unchanged -/
  | rejectOriginal
  /-- `Promise.reject(refreshError)`: the refresh failure propagates -/
  | rejectRefreshFailure
  /-- `return http(originalRequest)`: the original request reissued with this config -/
  | returnReplay (newCfg : ReqConfig)
deriving Repr, DecidableEq

/-- Counters and conclusion of one run of the response-error handler. -/
structure HandlerRun where
  refreshCalls : Nat
  replays : Nat
  sessionExpiredCalls : Nat
  outcome : HandlerOutcome
deriving Repr, DecidableEq

/-- The response-error handler of `setupInterceptors`.  `authRefreshToken`
is `auth.refreshToken.value`; `refreshResult` the outcome of
`auth.refreshAccessToken()` (resolved token value, or rejection). -/
def responseErrorHandler (authRefreshToken : Option String)
    (refreshResult : Except Unit (Option String))
    (e : InterceptedError) : HandlerRun :=
  if e.status ≠ some 401 then
    ⟨0, 0, 0, .rejectOriginal⟩
  else if cfgSkip e.config then
    ⟨0, 0, 0, .rejectOriginal⟩
  else if cfgRetry e.config then
    ⟨0, 0, 1, .rejectOriginal⟩
  else if ¬ truthy authRefreshToken then
    ⟨0, 0, 0, .rejectOriginal⟩
  else
    let marked := e.config.map (fun c => { c with retryFlag := true })
    match refreshResult with
    | .ok newToken =>
      match marked with
      | some c =>
        ⟨1, 1, 0, .returnReplay { c with authorization := some ("Bearer " ++ jsStr newToken) }⟩
      | none => ⟨1, 0, 0, .rejectOriginal⟩
    | .error _ => ⟨1, 0, 1, .rejectRefreshFailure⟩

/-! ## Router guard (`src/guards.js`) -/

/-- Guard configuration (defaults as destructured in `setupGuards`). -/
structure GuardConfig where
  loginRouteName : String := "login"
  resetPasswordRouteName : String := "redefinir-senha"
  publicMetaKey : String := "public"
  authMetaKey : String := "auth"
  defaultRedirect : String := "/"
deriving Repr, DecidableEq

/-- The navigation target `to` as read by the guard: `name`, `path`,
`fullPath`, `query` (string-valued), and for each matched route record
the list of its truthy meta keys. -/
structure RouteTarget where
  name : Option String := none
  path : String := "/"
  fullPath : String := "/"
  query : List (String × String) := []
  matched : List (List String) := []
deriving Repr, DecidableEq

/-- Query-field access `to.query[k]`. -/
def qget (q : List (String × String)) (k : String) : Option String :=
  (q.find? (fun p => p.1 == k)).map (fun p => p.2)

/-- Rest spread `const \x7b logout, ...cleanQuery \x7d = to.query`. -/
def qremove (q : List (String × String)) (k : String) : List (String × String) :=
  q.filter (fun p => p.1 ≠ k)

/-- What the guard passed to `next`. -/
inductive GuardDecision where
  /-- `next(\x7bpath, query, replace\x7d)` -/
  | redirectPath (path : String) (query : List (String × String)) (replace : Bool)
  /-- `next(\x7bname, query\x7d)` (no `replace`) -/
  | redirectName (name : String) (query : List (String × String)) (replace : Bool)
  /-- `next()` -/
  | allow
deriving Repr, DecidableEq

/-- `to.matched.some((record) => record.meta[authMetaKey])`. -/
def requiresAuth (g : GuardConfig) (tgt : RouteTarget) : Bool :=
  tgt.matched.any (fun m => m.contains g.authMetaKey)

/-- `to.name === loginRouteName || to.name === resetPasswordRouteName`. -/
def isLoginPages (g : GuardConfig) (tgt : RouteTarget) : Bool :=
  tgt.name == some g.loginRouteName || tgt.name == some g.resetPasswordRouteName

/-- The `beforeEach` guard body, after the initial-loading wait has
completed (`auth.loading` false).  `authenticated` is
`auth.isAuthenticated.value`. -/
def guardDecide (g : GuardConfig) (authenticated : Bool) (tgt : RouteTarget) :
    GuardDecision :=
  if truthy (qget tgt.query "logout") then
    .redirectPath tgt.path (qremove tgt.query "logout") true
  else if isLoginPages g tgt && authenticated then
    .redirectPath (jsStr (jsOr (qget tgt.query "redirect") (some g.defaultRedirect))) [] true
  else if requiresAuth g tgt && ¬ authenticated then
    .redirectName g.loginRouteName [("redirect", tgt.fullPath)] false
  else
    .allow

/-! ## Helper lemmas -/

/-- Expected trace of `k` consecutive failing refresh attempts starting at
attempt index `i`, each followed by its linear-backoff sleep. -/
def attemptsTrace (cfg : AuthConfig) (rt : String) : Nat → Nat → List Action
  | _i, 0 => []
  | i, k + 1 =>
    .post cfg.refreshEndpoint rt true :: .sleepMs (1000 * (i + 1)) ::
      attemptsTrace cfg rt (i + 1) k

lemma refreshLoop_success (cfg : AuthConfig) (rt : String)
    (oracle : Nat → Except HttpError Body) (data : Body) :
    ∀ (k i fuel : Nat) (le : Option HttpError) (s : AuthState), k < fuel →
      (∀ j, j < k → ∃ e, oracle (i + j) = .error e) →
      oracle (i + k) = .ok data →
      refreshLoop cfg rt oracle i fuel le s =
        (.ok (extractAccess cfg data),
         setTokens s (extractAccess cfg data) (some rt),
         attemptsTrace cfg rt i k ++
           [.post cfg.refreshEndpoint rt true,
            .didSetTokens (extractAccess cfg data) (some rt)]) := by
  intro k
  induction k with
  | zero =>
    intro i fuel le s hk _hfail hok
    obtain ⟨f, rfl⟩ : ∃ f, fuel = f + 1 := ⟨fuel - 1, by omega⟩
    rw [Nat.add_zero] at hok
    simp [refreshLoop, hok, attemptsTrace]
  | succ k ih =>
    intro i fuel le s hk hfail hok
    obtain ⟨f, rfl⟩ : ∃ f, fuel = f + 1 := ⟨fuel - 1, by omega⟩
    obtain ⟨e0, he0⟩ := hfail 0 (Nat.succ_pos k)
    rw [Nat.add_zero] at he0
    have hf : ¬ (f = 0) := by omega
    have htail := ih (i + 1) f (some e0) s (by omega)
      (fun j hj => by
        obtain ⟨e, he⟩ := hfail (j + 1) (by omega)
        refine ⟨e, ?_⟩
        have hidx : i + 1 + j = i + (j + 1) := by omega
        rw [hidx]; exact he)
      (by
        have hidx : i + 1 + k = i + (k + 1) := by omega
        rw [hidx]; exact hok)
    simp [refreshLoop, he0, hf, htail, attemptsTrace]

lemma refreshLoop_allFail (cfg : AuthConfig) (rt : String)
    (oracle : Nat → Except HttpError Body) (eLast : HttpError) :
    ∀ (m i : Nat) (le : Option HttpError) (s : AuthState),
      (∀ j, j < m + 1 → ∃ e, oracle (i + j) = .error e) →
      oracle (i + m) = .error eLast →
      refreshLoop cfg rt oracle i (m + 1) le s =
        (.failed (some eLast), clearAuth s,
         attemptsTrace cfg rt i m ++
           [.post cfg.refreshEndpoint rt true, .didClearAuth]) := by
  intro m
  induction m with
  | zero =>
    intro i le s _hfail hlast
    rw [Nat.add_zero] at hlast
    simp [refreshLoop, hlast, attemptsTrace]
  | succ m ih =>
    intro i le s hfail hlast
    obtain ⟨e0, he0⟩ := hfail 0 (by omega)
    rw [Nat.add_zero] at he0
    have htail := ih (i + 1) (some e0) s
      (fun j hj => by
        obtain ⟨e, he⟩ := hfail (j + 1) (by omega)
        refine ⟨e, ?_⟩
        have hidx : i + 1 + j = i + (j + 1) := by omega
        rw [hidx]; exact he)
      (by
        have hidx : i + 1 + m = i + (m + 1) := by omega
        rw [hidx]; exact hlast)
    rw [refreshLoop.eq_def]
    simp only [he0]
    simp [htail, attemptsTrace]

/-! ## Claims -/

/-- **C1.** `refreshAccessToken` contract: with no (truthy) refresh token it
clears auth and throws with no HTTP call; otherwise it runs up to
`maxRetries` (default 3) sequential attempts, each POSTing the held refresh
token to the refresh endpoint with `_skipAuthRefresh` set; on the first
success it extracts the new access token by the login field-fallback rule,
calls `setTokens` with it and the unchanged refresh token and returns it;
after a failed attempt with attempts remaining it sleeps
`1000 * attemptNumber` ms; when all attempts fail it clears auth and
rethrows the last error. -/
theorem C1_refreshAccessToken_contract (cfg : AuthConfig)
    (oracle : Nat → Except HttpError Body) (s : AuthState) :
    (({} : AuthConfig).maxRetries = 3) ∧
    (¬ truthy s.refreshToken →
      refreshAccessToken cfg oracle s = (.noRefreshToken, clearAuth s, [.didClearAuth])) ∧
    (∀ (rt : String) (data : Body) (k : Nat),
      s.refreshToken = some rt → rt ≠ "" →
      k < cfg.maxRetries →
      (∀ j, j < k → ∃ e, oracle j = .error e) →
      oracle k = .ok data →
      refreshAccessToken cfg oracle s =
        (.ok (extractAccess cfg data),
         setTokens s (extractAccess cfg data) (some rt),
         attemptsTrace cfg rt 0 k ++
           [.post cfg.refreshEndpoint rt true,
            .didSetTokens (extractAccess cfg data) (some rt)])) ∧
    (∀ (rt : String) (m : Nat) (eLast : HttpError),
      s.refreshToken = some rt → rt ≠ "" →
      cfg.maxRetries = m + 1 →
      (∀ j, j < m + 1 → ∃ e, oracle j = .error e) →
      oracle m = .error eLast →
      refreshAccessToken cfg oracle s =
        (.failed (some eLast), clearAuth s,
         attemptsTrace cfg rt 0 m ++
           [.post cfg.refreshEndpoint rt true, .didClearAuth])) := by
  refine ⟨rfl, ?_, ?_, ?_⟩
  · intro hne
    unfold refreshAccessToken
    match hrt : s.refreshToken with
    | none => rfl
    | some rt =>
      rw [hrt] at hne
      simp [truthy] at hne
      simp [hne]
  · intro rt data k hrt hne hk hfail hok
    unfold refreshAccessToken
    rw [hrt]
    simp only [hne, if_false]
    have := refreshLoop_success cfg rt oracle data k 0 cfg.maxRetries none s hk
      (fun j hj => by simpa using hfail j hj) (by simpa using hok)
    simpa using this
  · intro rt m eLast hrt hne hmr hfail hlast
    unfold refreshAccessToken
    rw [hrt]
    simp only [hne, if_false]
    rw [hmr]
    have := refreshLoop_allFail cfg rt oracle eLast m 0 none s
      (fun j hj => by simpa using hfail j hj) (by simpa using hlast)
    simpa using this

/-- Concrete configuration for witnesses: all defaults. -/
def cfgW : AuthConfig := {}

/-- Concrete state holding a refresh token, for witnesses. -/
def sW : AuthState := { token := some "OLD", refreshToken := some "RT" }

/-- Concrete refresh oracle: attempt 0 fails with a 500, attempt 1 succeeds. -/
def oracleW : Nat → Except HttpError Body :=
  fun k => if k = 0 then .error { status := some 500 } else .ok [("token", "N2")]

theorem C1_refreshAccessToken_contract_witness :
    refreshAccessToken cfgW oracleW sW =
      (.ok (some "N2"),
       setTokens sW (some "N2") (some "RT"),
       attemptsTrace cfgW "RT" 0 1 ++
         [.post cfgW.refreshEndpoint "RT" true,
          .didSetTokens (some "N2") (some "RT")]) := by
  have hfail : ∀ j, j < 1 → ∃ e, oracleW j = .error e := by
    intro j hj
    interval_cases j
    exact ⟨{ status := some 500 }, rfl⟩
  have h := (C1_refreshAccessToken_contract cfgW oracleW sW).2.2.1 "RT"
    [("token", "N2")] 1 rfl (by decide) (by decide) hfail rfl
  rw [h]
  rfl

/-- **C2.** Response-interceptor contract: a non-401 error, a 401 on an
exempt request, and a 401 with no refresh token held each reject the
original error unchanged with no refresh and no replay; a 401 on a request
already marked retried invokes the session-expired callback and rejects the
original error; otherwise the request is marked retried and
`refreshAccessToken` is called exactly once — on success the original
request is reissued exactly once with `Authorization: Bearer <newToken>`,
on failure the session-expired callback fires and the refresh failure
propagates; in every case at most one refresh and at most one replay. -/
theorem C2_interceptor_contract (art : Option String)
    (rr : Except Unit (Option String)) (e : InterceptedError) :
    ((responseErrorHandler art rr e).refreshCalls ≤ 1) ∧
    ((responseErrorHandler art rr e).replays ≤ 1) ∧
    (e.status ≠ some 401 →
      responseErrorHandler art rr e = ⟨0, 0, 0, .rejectOriginal⟩) ∧
    (e.status = some 401 → cfgSkip e.config = true →
      responseErrorHandler art rr e = ⟨0, 0, 0, .rejectOriginal⟩) ∧
    (e.status = some 401 → cfgSkip e.config = false → cfgRetry e.config = true →
      responseErrorHandler art rr e = ⟨0, 0, 1, .rejectOriginal⟩) ∧
    (e.status = some 401 → cfgSkip e.config = false → cfgRetry e.config = false →
      truthy art = false →
      responseErrorHandler art rr e = ⟨0, 0, 0, .rejectOriginal⟩) ∧
    (∀ (c : ReqConfig) (tok : String),
      e.status = some 401 → e.config = some c → c.skipAuthRefresh = false →
      c.retryFlag = false → truthy art = true → rr = .ok (some tok) →
      responseErrorHandler art rr e =
        ⟨1, 1, 0, .returnReplay
          { c with retryFlag := true, authorization := some ("Bearer " ++ tok) }⟩) ∧
    (e.status = some 401 → cfgSkip e.config = false → cfgRetry e.config = false →
      truthy art = true → rr = .error () →
      responseErrorHandler art rr e = ⟨1, 0, 1, .rejectRefreshFailure⟩) := by
  refine ⟨?_, ?_, ?_, ?_, ?_, ?_, ?_, ?_⟩
  · unfold responseErrorHandler
    rcases e with ⟨st, cf⟩
    cases cf <;> cases rr
    all_goals repeat' split
    all_goals simp
  · unfold responseErrorHandler
    rcases e with ⟨st, cf⟩
    cases cf <;> cases rr
    all_goals repeat' split
    all_goals simp
  · intro h
    simp [responseErrorHandler, h]
  · intro h1 h2
    simp [responseErrorHandler, h1, h2]
  · intro h1 h2 h3
    simp [responseErrorHandler, h1, h2, h3]
  · intro h1 h2 h3 h4
    simp [responseErrorHandler, h1, h2, h3, h4]
  · intro c tok h1 h2 h3 h4 h5 h6
    simp [responseErrorHandler, h1, h2, h3, h4, h5, h6, cfgSkip, cfgRetry, jsStr]
  · intro h1 h2 h3 h4 h5
    simp [responseErrorHandler, h1, h2, h3, h4, h5]

theorem C2_interceptor_contract_witness :
    responseErrorHandler (some "RT") (.ok (some "N"))
        { status := some 401, config := some {} } =
      ⟨1, 1, 0, .returnReplay
        { skipAuthRefresh := false, retryFlag := true,
          authorization := some "Bearer N" }⟩ := by
  have h := (C2_interceptor_contract (some "RT") (.ok (some "N"))
      { status := some 401, config := some {} }).2.2.2.2.2.2.1
    {} "N" rfl rfl rfl rfl (by decide) rfl
  rw [h]
  decide

/-- **C3.** `logout()` contract: sets `authenticated` to false first, then
navigates (replace) to the configured login route with a logout query
marker, then calls `clearAuth`, then invokes the optional logout callback;
a navigation (or clear) rejection is caught and logged, so `logout` never
throws to its caller. -/
theorem C3_logout_contract (cfg : AuthConfig) (navOk : Bool) (s : AuthState) :
    ((logout cfg navOk s).2.2 = false) ∧
    ((logout cfg navOk s).1.authenticated = false) ∧
    (navOk = true →
      logout cfg navOk s =
        (clearAuth { s with authenticated := false },
         [.setAuthFalse, .navReplace cfg.loginRouteName true, .didClearAuth,
          .cbLogout],
         false)) ∧
    (navOk = false →
      logout cfg navOk s =
        ({ s with authenticated := false },
         [.setAuthFalse, .navReplace cfg.loginRouteName true, .consoleLog],
         false)) := by
  cases navOk <;> simp [logout, clearAuth]

theorem C3_logout_contract_witness :
    logout cfgW true sW =
      (clearAuth { sW with authenticated := false },
       [.setAuthFalse, .navReplace cfgW.loginRouteName true, .didClearAuth,
        .cbLogout],
       false) :=
  (C3_logout_contract cfgW true sW).2.2.1 rfl

/-- **C4.** `fetchUser()` contract: `loading` is true during the GET and
false afterwards in both cases; on success the body is stored as the
current user, `authenticated` becomes true, the fetch-user callback is
invoked and the body returned; on failure `clearAuth` runs and the error
is rethrown to the caller. -/
theorem C4_fetchUser_contract (cfg : AuthConfig)
    (outcome : Except HttpError String) (s : AuthState) :
    ((fetchUser cfg outcome s).duringLoading = true) ∧
    ((fetchUser cfg outcome s).final.loading = false) ∧
    (∀ d, outcome = .ok d →
      fetchUser cfg outcome s =
        { result := .ok d
          duringLoading := true
          final := { s with user := some d, authenticated := true, loading := false }
          trace := [.get cfg.userEndpoint, .cbFetchUser] }) ∧
    (∀ e, outcome = .error e →
      (fetchUser cfg outcome s).result = .error e ∧
      (fetchUser cfg outcome s).final = { clearAuth s with loading := false } ∧
      (fetchUser cfg outcome s).trace = [.get cfg.userEndpoint, .didClearAuth]) := by
  cases outcome <;> simp [fetchUser, clearAuth]

theorem C4_fetchUser_contract_witness :
    fetchUser cfgW (.ok "USR") sW =
      { result := .ok "USR"
        duringLoading := true
        final := { sW with
          user := some "USR"
          authenticated := true
          loading := false }
        trace := [.get cfgW.userEndpoint, .cbFetchUser] } :=
  (C4_fetchUser_contract cfgW (.ok "USR") sW).2.2.1 "USR" rfl

/-- **C5.** Router-guard priority: (1) a logout query marker causes one
re-navigation to the same path with the marker removed, replacing history;
(2) else an authenticated session targeting the login or reset-password
page is redirected (replace) to the query-provided redirect or the default;
(3) else a matched-route auth meta flag with an unauthenticated session
redirects to the login route carrying the requested full path as the
`redirect` query parameter (no replace); (4) otherwise navigation passes
unchanged. -/
theorem C5_guard_priority (g : GuardConfig) (authed : Bool) (tgt : RouteTarget) :
    (truthy (qget tgt.query "logout") = true →
      guardDecide g authed tgt =
        .redirectPath tgt.path (qremove tgt.query "logout") true) ∧
    (truthy (qget tgt.query "logout") = false →
      isLoginPages g tgt = true → authed = true →
      guardDecide g authed tgt =
        .redirectPath (jsStr (jsOr (qget tgt.query "redirect")
          (some g.defaultRedirect))) [] true) ∧
    (truthy (qget tgt.query "logout") = false →
      (isLoginPages g tgt && authed) = false →
      requiresAuth g tgt = true → authed = false →
      guardDecide g authed tgt =
        .redirectName g.loginRouteName [("redirect", tgt.fullPath)] false) ∧
    (truthy (qget tgt.query "logout") = false →
      (isLoginPages g tgt && authed) = false →
      (requiresAuth g tgt && !authed) = false →
      guardDecide g authed tgt = .allow) := by
  refine ⟨?_, ?_, ?_, ?_⟩
  · intro h
    simp [guardDecide, h]
  · intro h1 h2 h3
    simp [guardDecide, h1, h2, h3]
  · intro h1 h2 h3 h4
    simp [guardDecide, h1, h2, h3, h4]
  · intro h1 h2 h3
    simp [guardDecide, h1, h2, h3]

theorem C5_guard_priority_witness :
    guardDecide {} false
        { name := some "dash", path := "/d", fullPath := "/d?x=1",
          query := [("x", "1")], matched := [["auth"]] } =
      .redirectName "login" [("redirect", "/d?x=1")] false := by
  have h := (C5_guard_priority {} false
      { name := some "dash", path := "/d", fullPath := "/d?x=1",
        query := [("x", "1")], matched := [["auth"]] }).2.2.1
    (by decide) (by decide) (by decide) rfl
  rw [h]

/-- A sequence of `setTokens` calls applied in order. -/
def applySetTokens (s : AuthState) (calls : List (Option String × Option String)) :
    AuthState :=
  calls.foldl (fun st p => setTokens st p.1 p.2) s

/-- **C6 (counterexample).** The claim "storage never diverges from memory"
fails at an empty-string token: `setTokens("", "R")` keeps `""` in the
in-memory token ref but removes the token from storage (JS truthiness makes
`""` falsy), so the storage slot differs from the memory slot. -/
theorem C6_storage_sync_counterexample :
    (setTokens ({} : AuthState) (some "") (some "R")).storToken ≠
      (setTokens ({} : AuthState) (some "") (some "R")).token := by
  decide

/-- **C6 (amended).** After any sequence of `setTokens` calls the state is
determined by the last call: memory takes both new values verbatim with no
shape validation; each storage slot holds a truthy new value and is removed
for a falsy one (`null`/`undefined` or `""`); hence storage equals memory in
each slot whose most recent value is not the empty string. -/
theorem C6_setTokens_storage_sync (s : AuthState) (t r : Option String) :
    ((setTokens s t r).token = t) ∧
    ((setTokens s t r).refreshToken = r) ∧
    ((setTokens s t r).storToken = if truthy t then t else none) ∧
    ((setTokens s t r).storRefresh = if truthy r then r else none) ∧
    (t ≠ some "" → (setTokens s t r).storToken = (setTokens s t r).token) ∧
    (r ≠ some "" → (setTokens s t r).storRefresh = (setTokens s t r).refreshToken) ∧
    (∀ calls : List (Option String × Option String),
      applySetTokens s (calls ++ [(t, r)]) =
        setTokens (applySetTokens s calls) t r) := by
  refine ⟨rfl, rfl, rfl, rfl, ?_, ?_, ?_⟩
  · intro ht
    cases t with
    | none => simp [setTokens, truthy]
    | some x =>
      have hx : x ≠ "" := fun h => ht (by rw [h])
      simp [setTokens, truthy, hx]
  · intro hr
    cases r with
    | none => simp [setTokens, truthy]
    | some x =>
      have hx : x ≠ "" := fun h => hr (by rw [h])
      simp [setTokens, truthy, hx]
  · intro calls
    simp [applySetTokens, List.foldl_append]

theorem C6_setTokens_storage_sync_witness :
    (setTokens ({} : AuthState) (some "A") none).storToken =
      (setTokens ({} : AuthState) (some "A") none).token :=
  (C6_setTokens_storage_sync {} (some "A") none).2.2.2.2.1 (by decide)

/-- **C7.** `login` never throws: on any failure (POST error or a
`fetchUser` failure propagating up) it extracts a message by trying the
`detail` field, then the `message` field, else the generic default, invokes
the error callback with that message, and returns a failure result carrying
the error and message; `loading` ends false in every case. -/
theorem C7_login_never_throws (cfg : AuthConfig) (postO : Except HttpError Body)
    (getO : Except HttpError String) (s : AuthState) :
    ((login cfg postO getO s).threw = false) ∧
    ((login cfg postO getO s).final.loading = false) ∧
    (∀ e, postO = .error e →
      (login cfg postO getO s).result = .failed e (errMessage e) ∧
      Action.cbError (errMessage e) ∈ (login cfg postO getO s).trace) ∧
    (∀ data e, postO = .ok data → getO = .error e →
      (login cfg postO getO s).result = .failed e (errMessage e) ∧
      Action.cbError (errMessage e) ∈ (login cfg postO getO s).trace) ∧
    (∀ (e : HttpError) (d : String), e.detail = some d → d ≠ "" →
      errMessage e = d) ∧
    (∀ (e : HttpError) (m : String), truthy e.detail = false →
      e.message = some m → m ≠ "" → errMessage e = m) ∧
    (∀ e : HttpError, truthy e.detail = false → truthy e.message = false →
      errMessage e = "Erro ao realizar login") := by
  refine ⟨?_, ?_, ?_, ?_, ?_, ?_, ?_⟩
  · cases postO <;> cases getO <;> simp [login, fetchUser]
  · cases postO <;> cases getO <;> simp [login, fetchUser]
  · intro e he
    subst he
    simp [login]
  · intro data e hp hg
    subst hp
    subst hg
    simp [login, fetchUser]
  · intro e d hd hne
    simp [errMessage, jsOr, jsStr, truthy, hd, hne]
  · intro e m hdet hm hne
    unfold errMessage jsOr
    rw [hdet, hm]
    simp [truthy, jsStr, hne]
  · intro e h1 h2
    unfold errMessage jsOr
    rw [h1, h2]
    simp [jsStr]

theorem C7_login_never_throws_witness :
    (login cfgW (.error { status := some 400, detail := some "bad" }) (.ok "U")
        ({} : AuthState)).result =
      .failed { status := some 400, detail := some "bad" } "bad" := by
  have h := (C7_login_never_throws cfgW
      (.error { status := some 400, detail := some "bad" }) (.ok "U")
      ({} : AuthState)).2.2.1 { status := some 400, detail := some "bad" } rfl
  rw [h.1]
  rfl

/-- **C8.** Token extraction in `login`: the access token is taken from the
configured token-field name, else the `access` field, else the `token`
field; the refresh token from the configured refresh-field name, else
`refresh`, else `refresh_token`; a successful login POST stores exactly the
extracted pair via `setTokens`; concretely, for a body
`\x7baccess: "A", refresh: "R"\x7d` with neither configured key present the
stored pair is `"A"` / `"R"`. -/
theorem C8_login_token_fallback (cfg : AuthConfig) (data : Body)
    (getO : Except HttpError String) (s : AuthState) :
    (truthy (data.get cfg.tokenKey) = true →
      extractAccess cfg data = data.get cfg.tokenKey) ∧
    (truthy (data.get cfg.tokenKey) = false → truthy (data.get "access") = true →
      extractAccess cfg data = data.get "access") ∧
    (truthy (data.get cfg.tokenKey) = false → truthy (data.get "access") = false →
      extractAccess cfg data = data.get "token") ∧
    (truthy (data.get cfg.refreshTokenKey) = true →
      extractRefresh cfg data = data.get cfg.refreshTokenKey) ∧
    (truthy (data.get cfg.refreshTokenKey) = false →
      truthy (data.get "refresh") = true →
      extractRefresh cfg data = data.get "refresh") ∧
    (truthy (data.get cfg.refreshTokenKey) = false →
      truthy (data.get "refresh") = false →
      extractRefresh cfg data = data.get "refresh_token") ∧
    (Action.didSetTokens (extractAccess cfg data) (extractRefresh cfg data) ∈
      (login cfg (.ok data) getO s).trace) ∧
    (∀ u, getO = .ok u →
      (login { cfg with tokenKey := "tok", refreshTokenKey := "ref" }
          (.ok [("access", "A"), ("refresh", "R")]) getO s).final.token =
        some "A" ∧
      (login { cfg with tokenKey := "tok", refreshTokenKey := "ref" }
          (.ok [("access", "A"), ("refresh", "R")]) getO s).final.refreshToken =
        some "R") := by
  refine ⟨?_, ?_, ?_, ?_, ?_, ?_, ?_, ?_⟩
  · intro h
    simp [extractAccess, jsOr, h]
  · intro h1 h2
    simp [extractAccess, jsOr, h1, h2]
  · intro h1 h2
    simp [extractAccess, jsOr, h1, h2]
  · intro h
    simp [extractRefresh, jsOr, h]
  · intro h1 h2
    simp [extractRefresh, jsOr, h1, h2]
  · intro h1 h2
    simp [extractRefresh, jsOr, h1, h2]
  · cases getO <;> simp [login, fetchUser]
  · intro u hu
    subst hu
    constructor <;>
      simp [login, fetchUser, setTokens, extractAccess, extractRefresh,
        Body.get, jsOr, truthy]

theorem C8_login_token_fallback_witness :
    (login { cfgW with tokenKey := "tok", refreshTokenKey := "ref" }
        (.ok [("access", "A"), ("refresh", "R")]) (.ok "U")
        ({} : AuthState)).final.token = some "A" :=
  ((C8_login_token_fallback cfgW [("access", "A"), ("refresh", "R")] (.ok "U")
    ({} : AuthState)).2.2.2.2.2.2.2 "U" rfl).1

/-- **C9.** When the login POST succeeds (so `setTokens` stores the received
pair) but the subsequent `fetchUser` throws, `login` returns a failure
result and the full auth state ends cleared: both token refs, the user and
`authenticated` are reset and both storage slots removed — the trace shows
the stored pair being cleared again by `clearAuth`. -/
theorem C9_login_fetch_failure_clears (cfg : AuthConfig) (data : Body)
    (e : HttpError) (s : AuthState) :
    ((login cfg (.ok data) (.error e) s).result = .failed e (errMessage e)) ∧
    ((login cfg (.ok data) (.error e) s).threw = false) ∧
    ((login cfg (.ok data) (.error e) s).final =
      { clearAuth s with loading := false }) ∧
    ((login cfg (.ok data) (.error e) s).final.token = none) ∧
    ((login cfg (.ok data) (.error e) s).final.refreshToken = none) ∧
    ((login cfg (.ok data) (.error e) s).final.user = none) ∧
    ((login cfg (.ok data) (.error e) s).final.authenticated = false) ∧
    ((login cfg (.ok data) (.error e) s).final.storToken = none) ∧
    ((login cfg (.ok data) (.error e) s).final.storRefresh = none) ∧
    ((login cfg (.ok data) (.error e) s).trace =
      [.post cfg.loginEndpoint "" false,
       .didSetTokens (extractAccess cfg data) (extractRefresh cfg data),
       .get cfg.userEndpoint, .didClearAuth, .cbError (errMessage e)]) := by
  refine ⟨?_, ?_, ?_, ?_, ?_, ?_, ?_, ?_, ?_, ?_⟩ <;>
    simp [login, fetchUser, clearAuth, setTokens]

/-- **C10.** A refresh POST that succeeds with a body carrying no truthy
token field is still treated as a success: `refreshAccessToken` returns the
absent value without clearing auth, and `setTokens` removes the access
token from storage (and, when the fields are absent, from memory) while the
refresh token is kept in memory and storage. -/
theorem C10_refresh_falsy_token_success (cfg : AuthConfig)
    (oracle : Nat → Except HttpError Body) (s : AuthState) (rt : String)
    (data : Body) (hrt : s.refreshToken = some rt) (hne : rt ≠ "")
    (hmr : 0 < cfg.maxRetries) (hok : oracle 0 = .ok data)
    (hfalsy : truthy (extractAccess cfg data) = false) :
    ((refreshAccessToken cfg oracle s).1 = .ok (extractAccess cfg data)) ∧
    ((refreshAccessToken cfg oracle s).2.1 =
      setTokens s (extractAccess cfg data) (some rt)) ∧
    ((refreshAccessToken cfg oracle s).2.1.storToken = none) ∧
    ((refreshAccessToken cfg oracle s).2.1.refreshToken = some rt) ∧
    ((refreshAccessToken cfg oracle s).2.1.storRefresh = some rt) ∧
    (extractAccess cfg data = none →
      (refreshAccessToken cfg oracle s).2.1.token = none) ∧
    (Action.didClearAuth ∉ (refreshAccessToken cfg oracle s).2.2) := by
  have h := refreshLoop_success cfg rt oracle data 0 0 cfg.maxRetries none s hmr
    (fun j hj => absurd hj (by omega)) (by simpa using hok)
  have hra : refreshAccessToken cfg oracle s =
      (.ok (extractAccess cfg data),
       setTokens s (extractAccess cfg data) (some rt),
       attemptsTrace cfg rt 0 0 ++
         [.post cfg.refreshEndpoint rt true,
          .didSetTokens (extractAccess cfg data) (some rt)]) := by
    unfold refreshAccessToken
    rw [hrt]
    simp only [hne, if_false]
    exact h
  rw [hra]
  refine ⟨rfl, rfl, ?_, ?_, ?_, ?_, ?_⟩
  · simp [setTokens, hfalsy]
  · simp [setTokens]
  · simp [setTokens, truthy, hne]
  · intro hnone
    simp [setTokens, hnone]
  · simp [attemptsTrace]

theorem C10_refresh_falsy_token_success_witness :
    ((refreshAccessToken cfgW (fun _ => .ok []) sW).2.1.storToken = none) ∧
    ((refreshAccessToken cfgW (fun _ => .ok []) sW).2.1.refreshToken =
      some "RT") := by
  have h := C10_refresh_falsy_token_success cfgW (fun _ => .ok []) sW "RT" []
    rfl (by decide) (by decide) rfl (by decide)
  exact ⟨h.2.2.1, h.2.2.2.1⟩

end VueAuth
